import Mathlib

/-!
Shallow embedding of `src/app.js` (movie-actor-api): an in-memory Express
service with two collections, `actors` and `movies`.

Modelling decisions, each tied to a line of the source:

* JS objects are aliased: the movie-create handler (app.js 145-150) stores the very actor object
  returned by `findActorById` inside the movie (`const movie = {..., actor}`),
  and the actor-update handler mutates that object in place
  (`actor.firstName = ...`, app.js 90-92).  To capture this we keep a heap of actor objects
  (`St.heap`); the `actors` array and the `actor` field of each movie hold
  references (indices) into that heap.
* `parseInt(x)` and JSON field extraction are platform behaviour, not repo
  code: an `:id` route parameter or a body `actorId` is modelled by the
  `Option Int` that `parseInt` produces (`none` = `NaN`); a body string field
  is an `Option String` (`none` = absent).  JS truthiness of those values is
  modelled by `falsyStr` / `blankStr` / `falsyId` exactly at the sites the
  source tests them.
* `new Date(d)` parsing is platform behaviour: handlers are parametrised by
  `parseDate : String → Option Int` (`none` = Invalid Date) and by the
  current moment `now : Int` (milliseconds); `new Date(invalid) > new Date()`
  is `false` in JS, which `isFutureDate` reproduces.
-/

namespace MovieActorApi

/-- An actor record: `{ id, firstName, lastName, dateOfBirth }` (app.js 39-44). -/
structure Actor where
  id : Int
  firstName : String
  lastName : String
  dateOfBirth : String
deriving Repr, DecidableEq

/-- A movie record: `{ id, title, creationDate, actor }` (app.js 145-150).
`actorRef` is the heap reference of the embedded actor object. -/
structure Movie where
  id : Int
  title : String
  creationDate : String
  actorRef : Nat
deriving Repr, DecidableEq

/-- The process state: `let actors = []; let movies = []` (app.js 10-11),
plus the heap of allocated actor objects that both the `actors` array and
the `actor` fields of the movies point into. -/
structure St where
  heap : List Actor
  actors : List Nat
  movies : List Movie
deriving Repr, DecidableEq

/-- The initial state of app.js: both collections empty. -/
def St.init : St := ⟨[], [], []⟩

/-- Dummy actor used as the default of out-of-range heap reads; reachable
states never read it. -/
def defaultActor : Actor := ⟨0, "", "", ""⟩

/-- Dereference an actor object. -/
def getActor (s : St) (r : Nat) : Actor := s.heap.getD r defaultActor

/-- A movie as `res.json` serialises it: the embedded actor read through the
object reference at response time. -/
structure MovieOut where
  id : Int
  title : String
  creationDate : String
  actor : Actor
deriving Repr, DecidableEq

/-- Serialise a movie in state `s` (resolving its actor reference). -/
def serializeMovie (s : St) (m : Movie) : MovieOut :=
  ⟨m.id, m.title, m.creationDate, getActor s m.actorRef⟩

/-- An HTTP response of app.js: status plus JSON body shape. -/
inductive Resp where
  | err (status : Nat) (message : String)
  | actorOut (status : Nat) (a : Actor)
  | movieOut (status : Nat) (m : MovieOut)
  | actorsList (l : List Actor)
  | moviesList (l : List MovieOut)
  | noContent
deriving Repr, DecidableEq

/-- The HTTP status of a response (lists are 200, `res.status(204).send()` is 204). -/
def Resp.status : Resp → Nat
  | .err c _ => c
  | .actorOut c _ => c
  | .movieOut c _ => c
  | .actorsList _ => 200
  | .moviesList _ => 200
  | .noContent => 204

/-- JS truthiness test `!x` on an extracted string body field:
falsy iff absent or the empty string. -/
def falsyStr : Option String → Bool
  | none => true
  | some s => s == ""

/-- The compound test `!x || !x.trim()` (app.js 75, 78, 136): absent, empty,
or whitespace-only (`s.trim()` is falsy exactly when every character of `s`
is whitespace). -/
def blankStr : Option String → Bool
  | none => true
  | some s => s.data.all Char.isWhitespace

/-- JS truthiness test `!x` on a numeric body field (`actorId`):
falsy iff absent or `0`. -/
def falsyId : Option Int → Bool
  | none => true
  | some n => n == 0

/-- `x || y` on a validated string field (app.js 90-92): keep the old value
when the new one is absent or empty. -/
def jsOr (newVal : Option String) (old : String) : String :=
  match newVal with
  | none => old
  | some s => if s == "" then old else s

/-- `const isFutureDate = (date) => new Date(date) > new Date()` (app.js 14-16).
`parseDate` models `new Date(·).valueOf()`, `now` models `new Date().valueOf()`;
an Invalid Date (`none`) compares `false`. -/
def isFutureDate (parseDate : String → Option Int) (now : Int) (date : String) : Bool :=
  match parseDate date with
  | some t => t > now
  | none => false

/-- `actor.id === parseInt(id)` applied to the object behind reference `r`;
`pid = none` is `NaN`, which `===` never matches. -/
def idMatches (s : St) (pid : Option Int) (r : Nat) : Bool :=
  match pid with
  | some n => (getActor s r).id == n
  | none => false

/-- `const findActorById = (id) => actors.find(actor => actor.id === parseInt(id))`
(app.js 19-21), returning the reference of the found object. -/
def findActorById (s : St) (pid : Option Int) : Option Nat :=
  s.actors.find? (idMatches s pid)

/-- `movie.id === parseInt(req.params.id)` (app.js 163, 174, 203). -/
def movieIdMatches (pid : Option Int) (m : Movie) : Bool :=
  match pid with
  | some n => m.id == n
  | none => false

/-- Handler of POST /actors (app.js 26-48): require the three fields, reject a
future date of birth, then allocate an actor with `id = actors.length + 1`. -/
def postActor (pd : String → Option Int) (now : Int) (s : St)
    (firstName lastName dateOfBirth : Option String) : Resp × St :=
  if falsyStr firstName || falsyStr lastName || falsyStr dateOfBirth then
    (.err 400 "First name, last name, and date of birth are required.", s)
  else if isFutureDate pd now (dateOfBirth.getD "") then
    (.err 400 "Date of birth cannot be in the future.", s)
  else
    let actor : Actor :=
      ⟨(s.actors.length : Int) + 1, firstName.getD "", lastName.getD "", dateOfBirth.getD ""⟩
    (.actorOut 201 actor,
      { s with heap := s.heap ++ [actor], actors := s.actors ++ [s.heap.length] })

/-- Handler of GET /actors (app.js 51-53). -/
def getActors (s : St) : Resp :=
  .actorsList (s.actors.map (getActor s))

/-- Handler of GET /actors/:id (app.js 56-63). -/
def getActorById (s : St) (pid : Option Int) : Resp :=
  match findActorById s pid with
  | none => .err 404 "Actor not found"
  | some r => .actorOut 200 (getActor s r)

/-- Handler of PUT /actors/:id (app.js 66-95): find the actor object, validate
the fields, then mutate the object in place (its `id` is never changed). -/
def putActor (pd : String → Option Int) (now : Int) (s : St) (pid : Option Int)
    (firstName lastName dateOfBirth : Option String) : Resp × St :=
  match findActorById s pid with
  | none => (.err 404 "Actor not found", s)
  | some r =>
    if blankStr firstName then (.err 400 "First name cannot be empty.", s)
    else if blankStr lastName then (.err 400 "Last name cannot be empty.", s)
    else if falsyStr dateOfBirth then (.err 400 "Date of birth cannot be empty.", s)
    else if isFutureDate pd now (dateOfBirth.getD "") then
      (.err 400 "Date of birth cannot be in the future.", s)
    else
      let a := getActor s r
      let a' : Actor := { a with
        firstName := jsOr firstName a.firstName,
        lastName := jsOr lastName a.lastName,
        dateOfBirth := jsOr dateOfBirth a.dateOfBirth }
      (.actorOut 200 a', { s with heap := s.heap.set r a' })

/-- Handler of DELETE /actors/:id (app.js 98-116): first refuse if the
embedded actor of any movie carries this id, then splice out the first matching actor. -/
def deleteActor (s : St) (pid : Option Int) : Resp × St :=
  if s.movies.any (fun m => idMatches s pid m.actorRef) then
    (.err 400 "Cannot delete actor because they are assigned to a movie.", s)
  else
    match s.actors.findIdx? (idMatches s pid) with
    | none => (.err 404 "Actor not found", s)
    | some i => (.noContent, { s with actors := s.actors.eraseIdx i })

/-- Handler of POST /movies (app.js 121-154): `actorId` required, actor must
exist, then title/creationDate validation, then push a movie whose `actor`
field is the found actor object itself. -/
def postMovie (s : St) (title creationDate : Option String) (actorId : Option Int) :
    Resp × St :=
  if falsyId actorId then (.err 400 "Actor ID must be supplied.", s)
  else
    match findActorById s actorId with
    | none => (.err 404 "Actor not found", s)
    | some r =>
      if blankStr title then (.err 400 "Title cannot be empty.", s)
      else if falsyStr creationDate then (.err 400 "Creation date cannot be empty.", s)
      else
        let m : Movie :=
          ⟨(s.movies.length : Int) + 1, title.getD "", creationDate.getD "", r⟩
        (.movieOut 201 (serializeMovie s m), { s with movies := s.movies ++ [m] })

/-- Handler of GET /movies (app.js 157-159). -/
def getMovies (s : St) : Resp :=
  .moviesList (s.movies.map (serializeMovie s))

/-- Handler of GET /movies/:id (app.js 162-170). -/
def getMovieById (s : St) (pid : Option Int) : Resp :=
  match s.movies.find? (movieIdMatches pid) with
  | none => .err 404 "Movie not found"
  | some m => .movieOut 200 (serializeMovie s m)

/-- Handler of PUT /movies/:id (app.js 173-199): find the movie, require all
three body fields, resolve `actorId` (404 if it does not resolve), then
overwrite title, creationDate and the actor reference in place. -/
def putMovie (s : St) (pid : Option Int) (title creationDate : Option String)
    (actorId : Option Int) : Resp × St :=
  match s.movies.findIdx? (movieIdMatches pid) with
  | none => (.err 404 "Movie not found", s)
  | some i =>
    if falsyStr title || falsyStr creationDate || falsyId actorId then
      (.err 400 "Title, creation date, and actor ID must be provided.", s)
    else
      match findActorById s actorId with
      | none => (.err 404 "Actor not found", s)
      | some r =>
        let m := s.movies.getD i ⟨0, "", "", 0⟩
        let m' : Movie := { m with
          title := title.getD "",
          creationDate := creationDate.getD "",
          actorRef := r }
        (.movieOut 200 (serializeMovie s m'), { s with movies := s.movies.set i m' })

/-- Handler of DELETE /movies/:id (app.js 202-211). -/
def deleteMovie (s : St) (pid : Option Int) : Resp × St :=
  match s.movies.findIdx? (movieIdMatches pid) with
  | none => (.err 404 "Movie not found", s)
  | some i => (.noContent, { s with movies := s.movies.eraseIdx i })

/-- The ids currently present in the `actors` array. -/
def actorIds (s : St) : List Int :=
  s.actors.map (fun r => (getActor s r).id)

/-- Structural invariant of reachable states: every reference points into the
heap, and the embedded actor id of every movie is also the id of some actor
still in the `actors` array (DELETE /actors is refused while a movie carries
the id, so the id stays live). -/
structure Inv (s : St) : Prop where
  actorsValid : ∀ r ∈ s.actors, r < s.heap.length
  moviesValid : ∀ m ∈ s.movies, m.actorRef < s.heap.length
  refLive : ∀ m ∈ s.movies, ∃ r ∈ s.actors, (getActor s r).id = (getActor s m.actorRef).id

/-- States reachable by running the app.js handlers from the empty initial
state, for a fixed date-parsing platform `pd`; each mutating request may
happen at any moment `now`.  GET handlers do not change state. -/
inductive Reachable (pd : String → Option Int) : St → Prop where
  | init : Reachable pd St.init
  | stepPostActor (now : Int) (f l d : Option String) (s : St) :
      Reachable pd s → Reachable pd (postActor pd now s f l d).2
  | stepPutActor (now : Int) (pid : Option Int) (f l d : Option String) (s : St) :
      Reachable pd s → Reachable pd (putActor pd now s pid f l d).2
  | stepDeleteActor (pid : Option Int) (s : St) :
      Reachable pd s → Reachable pd (deleteActor s pid).2
  | stepPostMovie (t c : Option String) (aid : Option Int) (s : St) :
      Reachable pd s → Reachable pd (postMovie s t c aid).2
  | stepPutMovie (pid : Option Int) (t c : Option String) (aid : Option Int) (s : St) :
      Reachable pd s → Reachable pd (putMovie s pid t c aid).2
  | stepDeleteMovie (pid : Option Int) (s : St) :
      Reachable pd s → Reachable pd (deleteMovie s pid).2

/-! ### Concrete fixtures

A concrete stand-in for the date-parsing platform, and states produced by
running the handlers on the example data of the spec, used to evaluate the
theorems on concrete inputs. -/

/-- A concrete platform parser standing in for `new Date(x).valueOf()`,
defined on the example dates of the spec (milliseconds since the epoch);
every other string is an Invalid Date. -/
def pdTest : String → Option Int := fun x =>
  if x == "1956-07-09" then some (-425865600000)
  else if x == "2000-12-22" then some 977443200000
  else if x == "3000-01-01" then some 32503680000000
  else none

/-- A concrete current moment (in 2023), later than the two past example
dates and earlier than the future one. -/
def nowTest : Int := 1700000000000

/-- One actor created (id 1, Tom Hanks). -/
def c1s1 : St :=
  (postActor pdTest nowTest St.init (some "Tom") (some "Hanks") (some "1956-07-09")).2

/-- ... then one movie created, embedding actor 1. -/
def c1s2 : St :=
  (postMovie c1s1 (some "Cast Away") (some "2000-12-22") (some 1)).2

/-- ... then PUT /actors/1 renames the actor to Thomas. -/
def c1s3 : St :=
  (putActor pdTest nowTest c1s2 (some 1) (some "Thomas") (some "Hanks") (some "1956-07-09")).2

/-- One actor created (id 1). -/
def c2s1 : St :=
  (postActor pdTest nowTest St.init (some "Alice") (some "Ant") (some "1956-07-09")).2

/-- ... then a second actor (id 2). -/
def c2s2 : St :=
  (postActor pdTest nowTest c2s1 (some "Bob") (some "Bee") (some "1956-07-09")).2

/-- ... then DELETE /actors/1: the collection now holds only the actor with
id 2, so a sequential-by-length id generator is about to collide. -/
def c2s3 : St :=
  (deleteActor c2s2 (some 1)).2

/-- One actor created (id 1), for the POST /movies counterexample. -/
def c4s : St :=
  (postActor pdTest nowTest St.init (some "Tom") (some "Hanks") (some "1956-07-09")).2

/-- Two actors (ids 1 and 2). -/
def c5s2 : St :=
  (postActor pdTest nowTest
    (postActor pdTest nowTest St.init (some "Tom") (some "Hanks") (some "1956-07-09")).2
    (some "Bob") (some "Dee") (some "1956-07-09")).2

/-- ... then one movie embedding actor 1. -/
def c5s3 : St :=
  (postMovie c5s2 (some "Cast Away") (some "2000-12-22") (some 1)).2

/-- Two actors (ids 1 and 2), built for the C7 duplicate-id run. -/
def c7s2 : St :=
  (postActor pdTest nowTest
    (postActor pdTest nowTest St.init (some "Alan") (some "Arkin") (some "1956-07-09")).2
    (some "Bill") (some "Bixby") (some "1956-07-09")).2

/-- ... then DELETE /actors/1. -/
def c7s3 : St :=
  (deleteActor c7s2 (some 1)).2

/-- ... then a third POST /actors: `actors.length + 1 = 2`, so the new actor
also gets id 2, and the collection holds two distinct objects with id 2. -/
def c7s4 : St :=
  (postActor pdTest nowTest c7s3 (some "Cara") (some "Cee") (some "1956-07-09")).2

/-- One actor (id 1), no movies: deletable. -/
def c7wA : St :=
  (postActor pdTest nowTest St.init (some "Tom") (some "Hanks") (some "1956-07-09")).2

/-- One actor (id 1) embedded in one movie: not deletable. -/
def c7wB : St :=
  (postMovie c7wA (some "Cast Away") (some "2000-12-22") (some 1)).2

/-- One actor (id 1), used to reach the title-validation branch of POST /movies. -/
def c9w : St :=
  (postActor pdTest nowTest St.init (some "Tom") (some "Hanks") (some "1956-07-09")).2

/-- One actor (id 1), used as a reachable state with id 5 absent. -/
def c3w : St :=
  (postActor pdTest nowTest St.init (some "Tom") (some "Hanks") (some "1956-07-09")).2

/-! ### General list lemmas -/

/-- `Array.prototype.find` returns the first match: `find?` is the head of
the filtered list. -/
theorem find?_eq_filter_head? {α : Type _} (p : α → Bool) (l : List α) :
    l.find? p = (l.filter p).head? := by
  induction l with
  | nil => rfl
  | cons a t ih =>
    by_cases h : p a
    · rw [List.find?_cons_of_pos _ h, List.filter_cons, if_pos h, List.head?_cons]
    · rw [List.find?_cons_of_neg _ (by simpa using h), List.filter_cons,
        if_neg (by simpa using h), ih]

/-- `findIdx?` on a cons, with the accumulator folded away. -/
theorem findIdx?_cons_elim {α : Type _} (p : α → Bool) (x : α) (t : List α) :
    (x :: t).findIdx? p = if p x then some 0 else (t.findIdx? p).map (· + 1) := by
  rw [List.findIdx?_cons]
  split <;> simp [List.findIdx?_succ]

/-- Reading below the length of the left part of an append. -/
theorem getD_append_left {α : Type _} {l l' : List α} {r : Nat} (d : α)
    (h : r < l.length) : (l ++ l').getD r d = l.getD r d := by
  simp [List.getD_eq_getElem?_getD, List.getElem?_append, h]

/-- Reading an in-range position just written. -/
theorem getD_set_self {α : Type _} {l : List α} {r : Nat} {a : α} (d : α)
    (h : r < l.length) : (l.set r a).getD r d = a := by
  simp [List.getD_eq_getElem?_getD, List.getElem?_set, h]

/-- Reading a position other than the one written. -/
theorem getD_set_ne {α : Type _} {l : List α} {q r : Nat} {a : α} (d : α)
    (h : r ≠ q) : (l.set r a).getD q d = l.getD q d := by
  simp [List.getD_eq_getElem?_getD, List.getElem?_set, h]

/-- An element different from the one at the erased position survives
`eraseIdx`. -/
theorem mem_eraseIdx_of_getElem?_ne {α : Type _} {l : List α} {a : α} {i : Nat}
    (ha : a ∈ l) (hne : l[i]? ≠ some a) : a ∈ l.eraseIdx i := by
  induction l generalizing i with
  | nil => cases ha
  | cons x t ih =>
    cases i with
    | zero =>
      rw [List.eraseIdx_cons_zero]
      rcases List.mem_cons.1 ha with rfl | h
      · exact (hne List.getElem?_cons_zero).elim
      · exact h
    | succ i =>
      rw [List.eraseIdx_cons_succ]
      rcases List.mem_cons.1 ha with rfl | h
      · exact List.mem_cons_self _ _
      · exact List.mem_cons_of_mem _ (ih h (by simpa using hne))

/-- Erasing the position `findIdx?` returned removes the last match when at
most one element matched. -/
theorem filter_eraseIdx_eq_nil {α : Type _} {p : α → Bool} {l : List α} {i : Nat}
    (hfind : l.findIdx? p = some i) (hu : (l.filter p).length ≤ 1) :
    (l.eraseIdx i).filter p = [] := by
  induction l generalizing i with
  | nil => simp at hfind
  | cons x t ih =>
    rw [findIdx?_cons_elim] at hfind
    by_cases hx : p x
    · rw [if_pos hx] at hfind
      cases hfind
      rw [List.eraseIdx_cons_zero]
      rw [List.filter_cons, if_pos hx] at hu
      rw [List.length_cons] at hu
      exact List.length_eq_zero.1 (by omega)
    · rw [if_neg hx] at hfind
      rcases Option.map_eq_some'.1 hfind with ⟨j, hj, rfl⟩
      rw [List.eraseIdx_cons_succ, List.filter_cons, if_neg (by simpa using hx)]
      rw [List.filter_cons, if_neg (by simpa using hx)] at hu
      exact ih hj hu

/-! ### The heap under updates -/

/-- An in-place field update that keeps the id leaves every id seen through
the heap unchanged. -/
theorem getActor_set_id (s : St) (r : Nat) (a' : Actor)
    (ha : a'.id = (getActor s r).id) (q : Nat) :
    (getActor { s with heap := s.heap.set r a' } q).id = (getActor s q).id := by
  simp only [getActor] at *
  by_cases hq : r = q
  · subst hq
    by_cases hr : r < s.heap.length
    · rw [getD_set_self _ hr]; exact ha
    · have h1 : (s.heap.set r a')[r]? = none := by
        simp [List.getElem?_set, hr]
      have h2 : s.heap[r]? = none := List.getElem?_eq_none (Nat.le_of_not_lt hr)
      simp [List.getD_eq_getElem?_getD, h1, h2]
  · rw [getD_set_ne _ hq]

/-! ### The invariant is preserved by every handler -/

theorem inv_init : Inv St.init := by
  refine ⟨?_, ?_, ?_⟩ <;> intro x hx <;> cases hx

theorem inv_postActor (pd : String → Option Int) (now : Int) (s : St)
    (f l d : Option String) (h : Inv s) : Inv (postActor pd now s f l d).2 := by
  unfold postActor
  split
  · exact h
  split
  · exact h
  refine ⟨?_, ?_, ?_⟩
  · intro r hr
    simp only [List.length_append, List.length_singleton]
    rcases List.mem_append.1 hr with h1 | h1
    · exact Nat.lt_succ_of_lt (h.actorsValid r h1)
    · rw [List.mem_singleton.1 h1]; exact Nat.lt_succ_self _
  · intro m hm
    simp only [List.length_append, List.length_singleton]
    exact Nat.lt_succ_of_lt (h.moviesValid m hm)
  · intro m hm
    obtain ⟨r, hr, hid⟩ := h.refLive m hm
    refine ⟨r, List.mem_append_left _ hr, ?_⟩
    simp only [getActor]
    rw [getD_append_left _ (h.actorsValid r hr), getD_append_left _ (h.moviesValid m hm)]
    exact hid

theorem inv_putActor (pd : String → Option Int) (now : Int) (s : St)
    (pid : Option Int) (f l d : Option String) (h : Inv s) :
    Inv (putActor pd now s pid f l d).2 := by
  unfold putActor
  split
  · exact h
  next r heq =>
  split
  · exact h
  split
  · exact h
  split
  · exact h
  split
  · exact h
  dsimp only
  refine ⟨?_, ?_, ?_⟩
  · intro q hq
    rw [List.length_set]
    exact h.actorsValid q hq
  · intro m hm
    rw [List.length_set]
    exact h.moviesValid m hm
  · intro m hm
    obtain ⟨q, hq, hid⟩ := h.refLive m hm
    refine ⟨q, hq, ?_⟩
    rw [getActor_set_id s r ⟨(getActor s r).id, jsOr f (getActor s r).firstName,
      jsOr l (getActor s r).lastName, jsOr d (getActor s r).dateOfBirth⟩ rfl q,
      getActor_set_id s r ⟨(getActor s r).id, jsOr f (getActor s r).firstName,
      jsOr l (getActor s r).lastName, jsOr d (getActor s r).dateOfBirth⟩ rfl m.actorRef]
    exact hid

theorem inv_deleteActor (s : St) (pid : Option Int) (h : Inv s) :
    Inv (deleteActor s pid).2 := by
  unfold deleteActor
  split
  · exact h
  next hg =>
  cases hidx : s.actors.findIdx? (idMatches s pid) with
  | none => exact h
  | some i =>
    cases pid with
    | none =>
      have : s.actors.findIdx? (idMatches s none) = none :=
        List.findIdx?_eq_none_iff.2 (fun x _ => rfl)
      rw [this] at hidx; cases hidx
    | some n =>
      have hany : s.movies.any (fun m => idMatches s (some n) m.actorRef) = false :=
        Bool.not_eq_true _ ▸ Bool.of_not_eq_true hg
      obtain ⟨hi, hpi, -⟩ := List.findIdx?_eq_some_iff_getElem.1 hidx
      refine ⟨?_, h.moviesValid, ?_⟩
      · intro r hr
        exact h.actorsValid r (List.mem_of_mem_eraseIdx hr)
      · intro m hm
        obtain ⟨r, hr, hid⟩ := h.refLive m hm
        have hmref : idMatches s (some n) m.actorRef = false :=
          Bool.eq_false_iff.2 (List.any_eq_false.1 hany m hm)
        have hpr : idMatches s (some n) r = false := by
          simp only [idMatches] at hmref ⊢
          rw [hid]; exact hmref
        have hne : s.actors[i]? ≠ some r := by
          rw [List.getElem?_eq_getElem hi]
          intro hcon
          rw [Option.some_inj.1 hcon] at hpi
          rw [hpr] at hpi; cases hpi
        exact ⟨r, mem_eraseIdx_of_getElem?_ne hr hne, hid⟩

theorem inv_postMovie (s : St) (t c : Option String) (aid : Option Int)
    (h : Inv s) : Inv (postMovie s t c aid).2 := by
  unfold postMovie
  split
  · exact h
  split
  · exact h
  next r heq =>
  split
  · exact h
  split
  · exact h
  dsimp only
  have hrmem : r ∈ s.actors := List.mem_of_find?_eq_some heq
  refine ⟨h.actorsValid, ?_, ?_⟩
  · intro m hm
    rcases List.mem_append.1 hm with h1 | h1
    · exact h.moviesValid m h1
    · rw [List.mem_singleton.1 h1]
      exact h.actorsValid r hrmem
  · intro m hm
    rcases List.mem_append.1 hm with h1 | h1
    · exact h.refLive m h1
    · rw [List.mem_singleton.1 h1]
      exact ⟨r, hrmem, rfl⟩

theorem inv_putMovie (s : St) (pid : Option Int) (t c : Option String)
    (aid : Option Int) (h : Inv s) : Inv (putMovie s pid t c aid).2 := by
  unfold putMovie
  split
  · exact h
  next i hidx =>
  split
  · exact h
  split
  · exact h
  next r heq =>
  dsimp only
  have hrmem : r ∈ s.actors := List.mem_of_find?_eq_some heq
  refine ⟨h.actorsValid, ?_, ?_⟩
  · intro m hm
    rcases List.mem_or_eq_of_mem_set hm with h1 | h1
    · exact h.moviesValid m h1
    · rw [h1]; exact h.actorsValid r hrmem
  · intro m hm
    rcases List.mem_or_eq_of_mem_set hm with h1 | h1
    · exact h.refLive m h1
    · rw [h1]; exact ⟨r, hrmem, rfl⟩

theorem inv_deleteMovie (s : St) (pid : Option Int) (h : Inv s) :
    Inv (deleteMovie s pid).2 := by
  unfold deleteMovie
  split
  · exact h
  next i hidx =>
  dsimp only
  refine ⟨h.actorsValid, ?_, ?_⟩
  · intro m hm
    exact h.moviesValid m (List.mem_of_mem_eraseIdx hm)
  · intro m hm
    exact h.refLive m (List.mem_of_mem_eraseIdx hm)

/-- Every reachable state satisfies the invariant. -/
theorem reachable_inv {pd : String → Option Int} {s : St}
    (h : Reachable pd s) : Inv s := by
  induction h with
  | init => exact inv_init
  | stepPostActor now f l d s _ ih => exact inv_postActor _ now s f l d ih
  | stepPutActor now pid f l d s _ ih => exact inv_putActor _ now s pid f l d ih
  | stepDeleteActor pid s _ ih => exact inv_deleteActor s pid ih
  | stepPostMovie t c aid s _ ih => exact inv_postMovie s t c aid ih
  | stepPutMovie pid t c aid s _ ih => exact inv_putMovie s pid t c aid ih
  | stepDeleteMovie pid s _ ih => exact inv_deleteMovie s pid ih

/-! ### The claims -/

/-- C8: the future-date predicate used by all validation is strict:
`isFutureDate` is true exactly when the supplied date parses and its moment
is strictly later than the current moment; a date equal to the current
moment is not future. -/
theorem c8_is_future_date_strict (pd : String → Option Int) (now : Int) (d : String) :
    (isFutureDate pd now d = true ↔ ∃ t, pd d = some t ∧ now < t) ∧
    (pd d = some now → isFutureDate pd now d = false) := by
  constructor
  · unfold isFutureDate
    cases hp : pd d with
    | none => simp
    | some t0 => simp
  · intro hp
    unfold isFutureDate
    rw [hp]
    simp

/-- C8 witness: a date parsing strictly later than the current moment is
future; one parsing exactly to the current moment is not. -/
theorem c8_is_future_date_strict_witness :
    isFutureDate pdTest nowTest "3000-01-01" = true ∧
    isFutureDate (fun _ => some nowTest) nowTest "2023-11-14" = false :=
  ⟨(c8_is_future_date_strict pdTest nowTest "3000-01-01").1.mpr
      ⟨32503680000000, by decide, by decide⟩,
   (c8_is_future_date_strict (fun _ => some nowTest) nowTest "2023-11-14").2 rfl⟩

/-- C10: id lookup is total over arbitrary path strings: a non-numeric
`:id` (integer parse yields no number) matches nothing, so GET /actors/:id
and GET /movies/:id answer 404, and both lookups return at most the first
element carrying an equal id. -/
theorem c10_lookup_total_first_match (s : St) (n : Int) :
    findActorById s none = none ∧
    getActorById s none = .err 404 "Actor not found" ∧
    getMovieById s none = .err 404 "Movie not found" ∧
    findActorById s (some n) = (s.actors.filter (idMatches s (some n))).head? ∧
    s.movies.find? (movieIdMatches (some n)) =
      (s.movies.filter (movieIdMatches (some n))).head? := by
  have hfa : findActorById s none = none :=
    List.find?_eq_none.2 (fun x _ => by simp [idMatches])
  have hfm : s.movies.find? (movieIdMatches none) = none :=
    List.find?_eq_none.2 (fun x _ => by simp [movieIdMatches])
  refine ⟨hfa, ?_, ?_, find?_eq_filter_head? _ _, find?_eq_filter_head? _ _⟩
  · unfold getActorById
    rw [hfa]
  · unfold getMovieById
    rw [hfm]

/-- C6: a POST /actors whose date of birth parses strictly later than the
current processing moment always answers 400 (either the required-field
check or the future-date check fires; both are 400). -/
theorem c6_future_dob_400 (pd : String → Option Int) (now : Int) (s : St)
    (f l : Option String) (ds : String) (t : Int)
    (hp : pd ds = some t) (hfut : now < t) :
    ((postActor pd now s f l (some ds)).1).status = 400 := by
  have hfd : isFutureDate pd now ds = true := by
    unfold isFutureDate
    rw [hp]
    exact decide_eq_true hfut
  unfold postActor
  split
  · rfl
  split
  · rfl
  next h1 h2 =>
  exact absurd hfd h2

/-- C6 witness: a concrete future date of birth is refused with 400. -/
theorem c6_future_dob_400_witness :
    ((postActor pdTest nowTest St.init (some "Tom") (some "Hanks")
      (some "3000-01-01")).1).status = 400 :=
  c6_future_dob_400 pdTest nowTest St.init (some "Tom") (some "Hanks")
    "3000-01-01" 32503680000000 (by decide) (by decide)

/-- C3: in every reachable state, DELETE /actors/:id on an id absent from
the actors collection answers 404; the movie-reference guard cannot fire
for an absent id because a referenced id always belongs to a live actor. -/
theorem c3_delete_absent_404 (pd : String → Option Int) (s : St) (n : Int)
    (hreach : Reachable pd s)
    (habsent : ∀ r ∈ s.actors, (getActor s r).id ≠ n) :
    deleteActor s (some n) = (.err 404 "Actor not found", s) := by
  have hinv := reachable_inv hreach
  have hany : s.movies.any (fun m => idMatches s (some n) m.actorRef) = false := by
    rw [List.any_eq_false]
    intro m hm
    obtain ⟨r, hr, hid⟩ := hinv.refLive m hm
    simp only [idMatches, beq_iff_eq]
    rw [← hid]
    exact habsent r hr
  have hidx : s.actors.findIdx? (idMatches s (some n)) = none := by
    rw [List.findIdx?_eq_none_iff]
    intro r hr
    simp only [idMatches]
    exact beq_eq_false_iff_ne.2 (habsent r hr)
  unfold deleteActor
  rw [hany, hidx]
  rfl

/-- C3 witness: deleting the absent id 5 from a reachable one-actor state
answers 404. -/
theorem c3_delete_absent_404_witness :
    deleteActor c3w (some 5) = (.err 404 "Actor not found", c3w) :=
  c3_delete_absent_404 pdTest c3w 5
    (.stepPostActor nowTest (some "Tom") (some "Hanks") (some "1956-07-09") St.init .init)
    (by decide)

/-- C2 counterexample: after two creations and one deletion the collection
is reachable with `actorIds = [2]` (maximum id 2), yet a valid POST /actors
returns 201 with id 2 = `actors.length + 1`, not 3 = maximum + 1 — the id
even collides with the id already present. -/
theorem c2_counterexample :
    Reachable pdTest c2s3 ∧
    actorIds c2s3 = [2] ∧
    (postActor pdTest nowTest c2s3 (some "Cara") (some "Cee") (some "1956-07-09")).1 =
      .actorOut 201 ⟨2, "Cara", "Cee", "1956-07-09"⟩ := by
  refine ⟨?_, by decide, by decide⟩
  exact .stepDeleteActor (some 1) c2s2
    (.stepPostActor nowTest (some "Bob") (some "Bee") (some "1956-07-09") c2s1
      (.stepPostActor nowTest (some "Alice") (some "Ant") (some "1956-07-09") St.init .init))

/-- C2 (amended): a POST /actors with all three fields present and a
non-future date of birth returns 201 and the id `actors.length + 1` — one
more than the current element count, which coincides with the previous
maximum plus one only while no deletion has left a gap. -/
theorem c2_post_actor_id_is_length_succ (pd : String → Option Int) (now : Int)
    (s : St) (f l d : Option String)
    (hf : falsyStr f = false) (hl : falsyStr l = false) (hd : falsyStr d = false)
    (hfut : isFutureDate pd now (d.getD "") = false) :
    postActor pd now s f l d =
      (.actorOut 201 ⟨(s.actors.length : Int) + 1, f.getD "", l.getD "", d.getD ""⟩,
        { s with
          heap := s.heap ++ [⟨(s.actors.length : Int) + 1, f.getD "", l.getD "", d.getD ""⟩],
          actors := s.actors ++ [s.heap.length] }) := by
  unfold postActor
  rw [hf, hl, hd, hfut]
  rfl

/-- C2 witness: the amended statement evaluated in the post-deletion state. -/
theorem c2_post_actor_id_is_length_succ_witness :
    postActor pdTest nowTest c2s3 (some "Cara") (some "Cee") (some "1956-07-09") =
      (.actorOut 201 ⟨(c2s3.actors.length : Int) + 1, "Cara", "Cee", "1956-07-09"⟩,
        { c2s3 with
          heap := c2s3.heap ++ [⟨(c2s3.actors.length : Int) + 1, "Cara", "Cee", "1956-07-09"⟩],
          actors := c2s3.actors ++ [c2s3.heap.length] }) :=
  c2_post_actor_id_is_length_succ pdTest nowTest c2s3
    (some "Cara") (some "Cee") (some "1956-07-09") rfl rfl rfl (by decide)

/-- C4 counterexample: with actor 1 existing and resolving, a POST /movies
supplying actorId 1 but no title answers 400, not 201 as the claim has it
for every valid actorId. -/
theorem c4_counterexample :
    (findActorById c4s (some 1)).isSome = true ∧
    (postMovie c4s none (some "2000-12-22") (some 1)).1 =
      .err 400 "Title cannot be empty." :=
  ⟨by decide, by decide⟩

/-- C4 (amended): POST /movies answers 400 when actorId is missing (falsy),
404 when it is supplied but does not resolve, and 201 — with the embedded
actor equal to the resolved actor at creation time — when it resolves and
title and creationDate pass validation as well. -/
theorem c4_post_movie_cases (s : St) (t c : Option String) (aid : Option Int) :
    (falsyId aid = true →
      (postMovie s t c aid).1 = .err 400 "Actor ID must be supplied.") ∧
    (falsyId aid = false → findActorById s aid = none →
      (postMovie s t c aid).1 = .err 404 "Actor not found") ∧
    (∀ r, falsyId aid = false → findActorById s aid = some r →
      blankStr t = false → falsyStr c = false →
      (postMovie s t c aid).1 =
        .movieOut 201 ⟨(s.movies.length : Int) + 1, t.getD "", c.getD "", getActor s r⟩) := by
  refine ⟨?_, ?_, ?_⟩
  · intro ha
    unfold postMovie
    rw [ha]
    rfl
  · intro ha hf
    unfold postMovie
    rw [ha, hf]
    rfl
  · intro r ha hf ht hc
    unfold postMovie
    rw [ha, hf, ht, hc]
    rfl

/-- C4 witness: the three branches evaluated on the one-actor state. -/
theorem c4_post_movie_cases_witness :
    (postMovie c4s (some "Cast Away") (some "2000-12-22") none).1 =
      .err 400 "Actor ID must be supplied." ∧
    (postMovie c4s (some "Cast Away") (some "2000-12-22") (some 9)).1 =
      .err 404 "Actor not found" ∧
    (postMovie c4s (some "Cast Away") (some "2000-12-22") (some 1)).1 =
      .movieOut 201 ⟨1, "Cast Away", "2000-12-22", ⟨1, "Tom", "Hanks", "1956-07-09"⟩⟩ :=
  ⟨(c4_post_movie_cases c4s (some "Cast Away") (some "2000-12-22") none).1 rfl,
   (c4_post_movie_cases c4s (some "Cast Away") (some "2000-12-22") (some 9)).2.1
     rfl (by decide),
   (c4_post_movie_cases c4s (some "Cast Away") (some "2000-12-22") (some 1)).2.2
     0 rfl (by decide) (by decide) rfl⟩

/-- C9: in POST /movies the actor-existence check precedes title and
creation-date validation: a supplied but unresolved actorId answers 404
whatever title and creationDate are, and the two 400 validation messages
are reachable only when the actorId resolves. -/
theorem c9_actor_check_precedes_validation (s : St) (t c : Option String)
    (aid : Option Int) :
    (falsyId aid = false → findActorById s aid = none →
      (postMovie s t c aid).1 = .err 404 "Actor not found") ∧
    (((postMovie s t c aid).1 = .err 400 "Title cannot be empty." ∨
      (postMovie s t c aid).1 = .err 400 "Creation date cannot be empty.") →
      (findActorById s aid).isSome = true) := by
  constructor
  · intro ha hf
    unfold postMovie
    rw [ha, hf]
    rfl
  · intro hmsg
    cases hf : findActorById s aid with
    | some r => rfl
    | none =>
      exfalso
      unfold postMovie at hmsg
      rw [hf] at hmsg
      by_cases ha : falsyId aid = true
      · rw [ha] at hmsg
        simp at hmsg
      · rw [Bool.not_eq_true] at ha
        rw [ha] at hmsg
        simp at hmsg

/-- C9 witness: an unresolved actorId answers 404 even with a missing
title, and a reached title-validation message implies the actorId resolved. -/
theorem c9_actor_check_precedes_validation_witness :
    (postMovie c9w (some "X") (some "2000-12-22") (some 7)).1 =
      .err 404 "Actor not found" ∧
    (findActorById c9w (some 1)).isSome = true :=
  ⟨(c9_actor_check_precedes_validation c9w (some "X") (some "2000-12-22") (some 7)).1
     rfl (by decide),
   (c9_actor_check_precedes_validation c9w none (some "2000-12-22") (some 1)).2
     (Or.inl (by decide))⟩

/-- C5 counterexample: movie 1 exists and actorId 2 resolves to an existing
actor, yet a PUT /movies/1 that omits the title answers 400 and performs no
replacement — the all-fields guard runs before the actor is resolved. -/
theorem c5_counterexample :
    (c5s3.movies.findIdx? (movieIdMatches (some 1))).isSome = true ∧
    (findActorById c5s3 (some 2)).isSome = true ∧
    putMovie c5s3 (some 1) none (some "2000-12-22") (some 2) =
      (.err 400 "Title, creation date, and actor ID must be provided.", c5s3) :=
  ⟨by decide, by decide, by decide⟩

/-- C5 (amended): for an existing movie and with title and creationDate also
supplied, PUT /movies/:id with a resolving actorId answers 200 and replaces
the embedded actor with the current record of that actor, while a
non-resolving actorId answers 404 and leaves the state — hence the movie
record — exactly as it was. -/
theorem c5_put_movie_cases (s : St) (pid : Option Int) (t c : Option String)
    (aid : Option Int) (i : Nat)
    (hm : s.movies.findIdx? (movieIdMatches pid) = some i)
    (ht : falsyStr t = false) (hc : falsyStr c = false) (ha : falsyId aid = false) :
    (findActorById s aid = none →
      putMovie s pid t c aid = (.err 404 "Actor not found", s)) ∧
    (∀ r, findActorById s aid = some r →
      putMovie s pid t c aid =
        (.movieOut 200 ⟨(s.movies.getD i ⟨0, "", "", 0⟩).id, t.getD "", c.getD "",
            getActor s r⟩,
          { s with movies := s.movies.set i { s.movies.getD i ⟨0, "", "", 0⟩ with
              title := t.getD "", creationDate := c.getD "", actorRef := r } })) := by
  constructor
  · intro hf
    unfold putMovie
    rw [hm, ht, hc, ha, hf]
    rfl
  · intro r hf
    unfold putMovie
    rw [hm, ht, hc, ha, hf]
    rfl

/-- C5 witness: both branches evaluated on the two-actors-one-movie state. -/
theorem c5_put_movie_cases_witness :
    putMovie c5s3 (some 1) (some "Cast Away II") (some "2000-12-22") (some 9) =
      (.err 404 "Actor not found", c5s3) ∧
    putMovie c5s3 (some 1) (some "Cast Away II") (some "2000-12-22") (some 2) =
      (.movieOut 200 ⟨1, "Cast Away II", "2000-12-22", ⟨2, "Bob", "Dee", "1956-07-09"⟩⟩,
        { c5s3 with movies := [⟨1, "Cast Away II", "2000-12-22", 1⟩] }) :=
  ⟨(c5_put_movie_cases c5s3 (some 1) (some "Cast Away II") (some "2000-12-22")
      (some 9) 0 (by decide) rfl rfl rfl).1 (by decide),
   (c5_put_movie_cases c5s3 (some 1) (some "Cast Away II") (some "2000-12-22")
      (some 2) 0 (by decide) rfl rfl rfl).2 1 (by decide)⟩

/-- C7 counterexample: a reachable state (two creations, a deletion, a third
creation) holds two distinct actors both carrying id 2 and no movie; DELETE
/actors/2 answers 204 as the claim says, but the subsequent GET /actors/2
answers 200 with the surviving duplicate, not 404. -/
theorem c7_counterexample :
    Reachable pdTest c7s4 ∧
    c7s4.movies = [] ∧
    actorIds c7s4 = [2, 2] ∧
    (deleteActor c7s4 (some 2)).1 = .noContent ∧
    getActorById (deleteActor c7s4 (some 2)).2 (some 2) =
      .actorOut 200 ⟨2, "Cara", "Cee", "1956-07-09"⟩ := by
  refine ⟨?_, by decide, by decide, by decide, by decide⟩
  exact .stepPostActor nowTest (some "Cara") (some "Cee") (some "1956-07-09") c7s3
    (.stepDeleteActor (some 1) c7s2
      (.stepPostActor nowTest (some "Bill") (some "Bixby") (some "1956-07-09") _
        (.stepPostActor nowTest (some "Alan") (some "Arkin") (some "1956-07-09")
          St.init .init)))

/-- C7 (amended): DELETE /actors/:id on an id carried by some movie answers
400 and changes nothing; on an unreferenced present id it answers 204 and
erases the first actor carrying it, and the subsequent GET /actors/:id
answers 404 provided no second actor carries the same id (sequential
length-based ids can duplicate after deletions). -/
theorem c7_delete_actor_cases (s : St) (n : Int) :
    (s.movies.any (fun m => idMatches s (some n) m.actorRef) = true →
      deleteActor s (some n) =
        (.err 400 "Cannot delete actor because they are assigned to a movie.", s)) ∧
    (∀ i, s.movies.any (fun m => idMatches s (some n) m.actorRef) = false →
      s.actors.findIdx? (idMatches s (some n)) = some i →
      deleteActor s (some n) = (.noContent, { s with actors := s.actors.eraseIdx i }) ∧
      ((s.actors.filter (idMatches s (some n))).length ≤ 1 →
        getActorById { s with actors := s.actors.eraseIdx i } (some n) =
          .err 404 "Actor not found")) := by
  constructor
  · intro hg
    unfold deleteActor
    rw [hg]
    rfl
  · intro i hg hidx
    constructor
    · unfold deleteActor
      rw [hg, hidx]
      rfl
    · intro hu
      unfold getActorById findActorById
      have hnone : (s.actors.eraseIdx i).find? (idMatches s (some n)) = none := by
        rw [find?_eq_filter_head?, filter_eraseIdx_eq_nil hidx hu]
        rfl
      rw [show ({ s with actors := s.actors.eraseIdx i } : St).actors.find?
            (idMatches { s with actors := s.actors.eraseIdx i } (some n)) =
          (s.actors.eraseIdx i).find? (idMatches s (some n)) from rfl, hnone]

/-- C7 witness: deleting the unreferenced unique id 1 answers 204 and the
subsequent GET answers 404; deleting the movie-referenced id 1 answers 400
and changes nothing. -/
theorem c7_delete_actor_cases_witness :
    deleteActor c7wA (some 1) = (.noContent, { c7wA with actors := [] }) ∧
    getActorById { c7wA with actors := c7wA.actors.eraseIdx 0 } (some 1) =
      .err 404 "Actor not found" ∧
    deleteActor c7wB (some 1) =
      (.err 400 "Cannot delete actor because they are assigned to a movie.", c7wB) :=
  ⟨((c7_delete_actor_cases c7wA 1).2 0 (by decide) (by decide)).1,
   ((c7_delete_actor_cases c7wA 1).2 0 (by decide) (by decide)).2 (by decide),
   (c7_delete_actor_cases c7wB 1).1 (by decide)⟩

/-- C1 counterexample: the movie is created embedding actor 1 as Tom; a
later successful PUT /actors/1 renames the object to Thomas; GET /movies/1
then serialises the embedded actor as Thomas — the stored copy did change. -/
theorem c1_counterexample :
    getMovieById c1s2 (some 1) =
      .movieOut 200 ⟨1, "Cast Away", "2000-12-22", ⟨1, "Tom", "Hanks", "1956-07-09"⟩⟩ ∧
    (putActor pdTest nowTest c1s2 (some 1) (some "Thomas") (some "Hanks")
      (some "1956-07-09")).1 =
      .actorOut 200 ⟨1, "Thomas", "Hanks", "1956-07-09"⟩ ∧
    getMovieById c1s3 (some 1) =
      .movieOut 200 ⟨1, "Cast Away", "2000-12-22", ⟨1, "Thomas", "Hanks", "1956-07-09"⟩⟩ :=
  ⟨by decide, by decide, by decide⟩

/-- C1 (amended): the movie embeds a live reference, not a snapshot: after a
successful PUT /actors/:id on the object a movie references, the movie list
is untouched but the movie now serialises with the updated actor record. -/
theorem c1_put_actor_propagates (pd : String → Option Int) (now : Int) (s : St)
    (pid : Option Int) (f l d : Option String) (r : Nat) (a2 : Actor) (s2 : St)
    (m : Movie)
    (hr : findActorById s pid = some r) (hv : r < s.heap.length)
    (hres : putActor pd now s pid f l d = (.actorOut 200 a2, s2))
    (hm : m ∈ s2.movies) (hmr : m.actorRef = r) :
    s2.movies = s.movies ∧ (serializeMovie s2 m).actor = a2 := by
  unfold putActor at hres
  split at hres
  next heq =>
    rw [hr] at heq
    cases heq
  next r0 heq =>
  rw [hr] at heq
  injection heq with heq0
  subst heq0
  split at hres
  · simp at hres
  split at hres
  · simp at hres
  split at hres
  · simp at hres
  split at hres
  · simp at hres
  simp only [Prod.mk.injEq, Resp.actorOut.injEq] at hres
  obtain ⟨⟨-, ha2⟩, hs2⟩ := hres
  subst hs2
  subst ha2
  refine ⟨rfl, ?_⟩
  simp only [serializeMovie, getActor, hmr]
  rw [getD_set_self _ hv]

/-- C1 witness: the propagation theorem evaluated on the concrete run. -/
theorem c1_put_actor_propagates_witness :
    c1s3.movies = c1s2.movies ∧
    (serializeMovie c1s3 ⟨1, "Cast Away", "2000-12-22", 0⟩).actor =
      ⟨1, "Thomas", "Hanks", "1956-07-09"⟩ :=
  c1_put_actor_propagates pdTest nowTest c1s2 (some 1) (some "Thomas") (some "Hanks")
    (some "1956-07-09") 0 ⟨1, "Thomas", "Hanks", "1956-07-09"⟩ c1s3
    ⟨1, "Cast Away", "2000-12-22", 0⟩ (by decide) (by decide) (by decide)
    (by decide) rfl

end MovieActorApi
